import Mathlib

/-!
Verification of the client-side Soroban interaction layer of the
soropad/launchpad repository: the value codec, formatting utilities,
holder aggregation and token-info fetching of src/frontend/lib/stellar.ts,
the duplicated helpers and the submit/poll loop of
src/frontend/lib/soroban.ts, and the vesting computation of
src/frontend/app/dashboard/[contractId]/VestingProgress.tsx.

JavaScript data is modelled as follows: strings are lists of characters,
BigInt values are unbounded integers (Int) with truncating division,
u32 ledger sequence numbers are Nat, thrown exceptions are Except or
Option results, and the float divisions appearing in display percentages
are modelled as exact rational divisions (only their guard structure is
claimed about).
-/

/-- JavaScript strings, modelled as lists of characters. -/
abbrev JsStr := List Char

/-- Decimal digit to its character, for the model of number-to-string
conversion. -/
def digitChar (d : Nat) : Char :=
  match d with
  | 0 => '0'
  | 1 => '1'
  | 2 => '2'
  | 3 => '3'
  | 4 => '4'
  | 5 => '5'
  | 6 => '6'
  | 7 => '7'
  | 8 => '8'
  | _ => '9'

/-- Little-endian decimal digits of a natural number, with explicit fuel so
that the definition is structural (fuel at least the digit count suffices;
callers pass the number itself plus one). -/
def natDigitsAux : Nat → Nat → List Char
  | 0, _ => []
  | fuel + 1, n =>
    if n < 10 then [digitChar n]
    else digitChar (n % 10) :: natDigitsAux fuel (n / 10)

/-- Model of JavaScript decimal rendering of a nonnegative integer
(toString on a BigInt or Number). -/
def natReprModel (n : Nat) : JsStr :=
  (natDigitsAux (n + 1) n).reverse

/-- Model of JavaScript BigInt toString: decimal digits with a leading
minus sign for negative values. -/
def intRepr (i : Int) : JsStr :=
  if i < 0 then '-' :: natReprModel i.natAbs else natReprModel i.natAbs

/-- Value of a list of decimal digit characters, most significant first
(helper for the BigInt parsing model). -/
def digitsVal (s : JsStr) : Nat :=
  s.foldl (fun acc c => acc * 10 + (c.toNat - 48)) 0

/-- Model of the JavaScript BigInt constructor on a well-formed decimal
string, possibly with a leading minus sign. -/
def jsParseBigInt (s : JsStr) : Int :=
  match s with
  | '-' :: rest => -(digitsVal rest : Int)
  | _ => (digitsVal s : Int)

/-- Model of JavaScript String.prototype.padStart with a one-character pad. -/
def jsPadStart (s : JsStr) (n : Nat) (c : Char) : JsStr :=
  List.replicate (n - s.length) c ++ s

/-- Model of the regular-expression replace stripping all trailing zero
characters. -/
def stripTrailingZeros (s : JsStr) : JsStr :=
  ((s.reverse).dropWhile (fun c => c == '0')).reverse

/-- Insert a comma after every three characters of a reversed digit list;
helper for the locale-grouping model of toLocaleString. -/
def groupRev : List Char → List Char
  | a :: b :: c :: d :: rest => a :: b :: c :: ',' :: groupRev (d :: rest)
  | l => l

/-- Model of JavaScript toLocaleString on an integer: decimal digits with
en-US thousands grouping and a leading minus sign for negative values. -/
def toLocaleStringInt (i : Int) : JsStr :=
  (if i < 0 then ['-'] else []) ++ (groupRev ((natReprModel i.natAbs).reverse)).reverse

/-- Model of JavaScript BigInt left shift: arithmetic shift in arbitrary
precision, that is multiplication by a power of two. -/
def jsShiftLeft (x : Int) (n : Nat) : Int := x * 2 ^ n

/-- Model of JavaScript BigInt division: truncation toward zero. -/
def jsDiv (a b : Int) : Int := Int.tdiv a b

/-- Model of JavaScript BigInt remainder: sign follows the dividend. -/
def jsMod (a b : Int) : Int := Int.tmod a b

/-- Model of JavaScript slice with a negative start index, slice(-n): the
last n characters when n is positive, and the whole string when n is zero
(slice(-0) is slice(0)). -/
def jsSliceFromEnd (s : JsStr) (n : Nat) : JsStr :=
  if n = 0 then s else s.drop (s.length - n)

/-- The wire value union (ScVal), restricted to the variants this client
constructs or inspects. The i128 variant carries the signed high and
unsigned low 64-bit halves as integers. -/
inductive ScVal where
  | scvSymbol (s : JsStr)
  | scvString (s : JsStr)
  | scvU32 (n : Nat)
  | scvI128 (hi : Int) (lo : Nat)
  | scvBool (b : Bool)
  | scvAddress (a : JsStr)
  | scvVoid

/-- Fallback stringification used by the default arm of decodeString,
modelling val.value()?.toString() ?? "": payload for text variants,
decimal digits for numbers, true/false for booleans, the generic object
rendering for structured payloads, and the empty string for void. -/
def scValFallback : ScVal → JsStr
  | ScVal.scvSymbol s => s
  | ScVal.scvString s => s
  | ScVal.scvU32 n => natReprModel n
  | ScVal.scvBool b => if b then ("true").toList else ("false").toList
  | ScVal.scvI128 _ _ => ("[object Object]").toList
  | ScVal.scvAddress _ => ("[object Object]").toList
  | ScVal.scvVoid => []

/-- JavaScript truthiness of an optional string parameter: undefined and
the empty string are falsy. -/
def jsTruthy (s : Option JsStr) : Bool :=
  match s with
  | none => false
  | some str => !str.isEmpty

namespace StellarLib

/-- decodeString from src/frontend/lib/stellar.ts: symbol and string
variants project their payload; any other variant is stringified leniently
by the default arm. -/
def decodeString (val : ScVal) : JsStr :=
  match val with
  | ScVal.scvSymbol s => s
  | ScVal.scvString s => s
  | v => scValFallback v

/-- decodeI128 from src/frontend/lib/stellar.ts: reads the i128 halves
(the accessor throws on any other variant, modelled as none) and returns
the decimal string of (hi shifted left by 64) + lo, computed with
arbitrary-precision BigInt arithmetic. -/
def decodeI128 (val : ScVal) : Option JsStr :=
  match val with
  | ScVal.scvI128 hi lo => some (intRepr (jsShiftLeft hi 64 + lo))
  | _ => none

/-- decodeU32 from src/frontend/lib/stellar.ts: val.u32(), which throws on
a non-u32 variant (modelled as none). -/
def decodeU32 (val : ScVal) : Option Nat :=
  match val with
  | ScVal.scvU32 n => some n
  | _ => none

/-- decodeAddress from src/frontend/lib/stellar.ts: the SDK conversion
accepts only the address variant and renders it as its text form,
modelled as the payload; other variants throw (none). -/
def decodeAddress (val : ScVal) : Option JsStr :=
  match val with
  | ScVal.scvAddress a => some a
  | _ => none

/-- Numeric core of formatTokenAmount from src/frontend/lib/stellar.ts,
after the BigInt parse of the raw string: truncating division and
remainder by 10 to the decimals, whole part with locale grouping, and for
a nonzero remainder a dot followed by the zero-padded fractional digits
with trailing zeros stripped. -/
def formatTokenAmountNum (num : Int) (decimals : Nat) : JsStr :=
  if jsMod num (10 ^ decimals) = 0 then toLocaleStringInt (jsDiv num (10 ^ decimals))
  else toLocaleStringInt (jsDiv num (10 ^ decimals)) ++ '.' ::
    stripTrailingZeros (jsPadStart (intRepr (jsMod num (10 ^ decimals))) decimals '0')

/-- formatTokenAmount from src/frontend/lib/stellar.ts: the sentinel then
the numeric path on the parsed BigInt. -/
def formatTokenAmount (raw : JsStr) (decimals : Nat) : JsStr :=
  if raw = ("N/A").toList then raw
  else formatTokenAmountNum (jsParseBigInt raw) decimals

/-- truncateAddress from src/frontend/lib/stellar.ts: strings of length at
most chars * 2 + 3 pass through unchanged; longer strings become
slice(0, chars + 1), three ASCII periods, then slice(-chars). -/
def truncateAddress (addr : JsStr) (chars : Nat) : JsStr :=
  if addr.length ≤ chars * 2 + 3 then addr
  else addr.take (chars + 1) ++ ("...").toList ++ jsSliceFromEnd addr chars

/-- TokenInfo record from src/frontend/lib/stellar.ts. -/
structure TokenInfo where
  name : JsStr
  symbol : JsStr
  decimals : Nat
  totalSupply : JsStr
  circulatingSupply : JsStr
  admin : JsStr
  contractId : JsStr
deriving DecidableEq

/-- Outcomes of the five contract simulations performed by fetchTokenInfo
(name, symbol, decimals, admin, total_supply), each either the returned
wire value or a thrown error message. -/
structure SimResults where
  nameRes : Except JsStr ScVal
  symbolRes : Except JsStr ScVal
  decimalsRes : Except JsStr ScVal
  adminRes : Except JsStr ScVal
  totalSupplyRes : Except JsStr ScVal

/-- fetchTokenInfo from src/frontend/lib/stellar.ts with network calls
abstracted to a record of simulation outcomes. A failure of name, symbol
or decimals rejects the whole fetch (Promise.all), as does a decode throw
outside any try block; the admin call carries catch-to-null so its failure
renders as the sentinel; the total_supply call sits in a try block whose
catch leaves both supply fields at the sentinel. -/
def fetchTokenInfo (contractId : JsStr) (r : SimResults) : Except JsStr TokenInfo :=
  match r.nameRes, r.symbolRes, r.decimalsRes with
  | Except.error e, _, _ => Except.error e
  | _, Except.error e, _ => Except.error e
  | _, _, Except.error e => Except.error e
  | Except.ok nameVal, Except.ok symbolVal, Except.ok decimalsVal =>
    match decodeU32 decimalsVal with
    | none => Except.error (("decode of decimals threw").toList)
    | some decimals =>
      let supplies : JsStr × JsStr :=
        match r.totalSupplyRes with
        | Except.error _ => (("N/A").toList, ("N/A").toList)
        | Except.ok supplyVal =>
          match decodeI128 supplyVal with
          | none => (("N/A").toList, ("N/A").toList)
          | some rawSupply =>
            let ts := formatTokenAmount rawSupply decimals
            (ts, ts)
      match r.adminRes with
      | Except.error _ =>
        Except.ok ⟨decodeString nameVal, decodeString symbolVal, decimals,
          supplies.1, supplies.2, ("N/A").toList, contractId⟩
      | Except.ok adminVal =>
        match decodeAddress adminVal with
        | none => Except.error (("decode of admin address threw").toList)
        | some a =>
          Except.ok ⟨decodeString nameVal, decodeString symbolVal, decimals,
            supplies.1, supplies.2, a, contractId⟩

/-- TokenHolder record from src/frontend/lib/stellar.ts: address, raw
balance in the smallest unit, and share percentage (the float division by
100 is modelled as exact rational division). -/
structure TokenHolder where
  address : JsStr
  rawBalance : Nat
  sharePercent : ℚ
deriving DecidableEq

/-- Outcome of the historical-ledger (Horizon) accounts-for-asset query:
a thrown error, or a page of records each carrying the account address and
the raw balance of the matching trustline when one exists. -/
inductive HolderQuery where
  | fail
  | ok (records : List (JsStr × Option Nat))

/-- Sum of the raw balances of the fetched records (the total accumulator
in the code); a record without a matching trustline contributes zero. -/
def sumBalances (records : List (JsStr × Option Nat)) : Nat :=
  (records.map (fun r => r.2.getD 0)).sum

/-- Share percentage of one holder: basis points by truncating BigInt
division against the fetched total, scaled by the float division by 100
(modelled exactly over the rationals); zero when the fetched total is
zero. -/
def sharePercentOf (raw total : Nat) : ℚ :=
  if 0 < total then (((raw * 10000) / total : Nat) : ℚ) / 100 else 0

/-- fetchTopHolders from src/frontend/lib/stellar.ts with the Horizon
query abstracted: both optional classic-asset arguments must be truthy or
the function returns the empty list without querying; a query failure is
caught and yields the empty list; otherwise each fetched record becomes a
holder whose share is computed against the sum of the fetched balances. -/
def fetchTopHolders (symbol issuer : Option JsStr) (q : HolderQuery) : List TokenHolder :=
  if jsTruthy symbol && jsTruthy issuer then
    match q with
    | HolderQuery.fail => []
    | HolderQuery.ok records =>
      let total := sumBalances records
      records.map (fun r => ⟨r.1, r.2.getD 0, sharePercentOf (r.2.getD 0) total⟩)
  else []

end StellarLib

namespace SorobanLib

/-- decodeString duplicated in src/frontend/lib/soroban.ts, textually
identical to the stellar.ts copy. -/
def decodeString (val : ScVal) : JsStr :=
  match val with
  | ScVal.scvSymbol s => s
  | ScVal.scvString s => s
  | v => scValFallback v

/-- decodeI128 duplicated in src/frontend/lib/soroban.ts. -/
def decodeI128 (val : ScVal) : Option JsStr :=
  match val with
  | ScVal.scvI128 hi lo => some (intRepr (jsShiftLeft hi 64 + lo))
  | _ => none

/-- decodeU32 duplicated in src/frontend/lib/soroban.ts. -/
def decodeU32 (val : ScVal) : Option Nat :=
  match val with
  | ScVal.scvU32 n => some n
  | _ => none

/-- decodeAddress duplicated in src/frontend/lib/soroban.ts. -/
def decodeAddress (val : ScVal) : Option JsStr :=
  match val with
  | ScVal.scvAddress a => some a
  | _ => none

/-- Numeric core of the formatTokenAmount copy in
src/frontend/lib/soroban.ts. -/
def formatTokenAmountNum (num : Int) (decimals : Nat) : JsStr :=
  if jsMod num (10 ^ decimals) = 0 then toLocaleStringInt (jsDiv num (10 ^ decimals))
  else toLocaleStringInt (jsDiv num (10 ^ decimals)) ++ '.' ::
    stripTrailingZeros (jsPadStart (intRepr (jsMod num (10 ^ decimals))) decimals '0')

/-- formatTokenAmount duplicated in src/frontend/lib/soroban.ts. -/
def formatTokenAmount (raw : JsStr) (decimals : Nat) : JsStr :=
  if raw = ("N/A").toList then raw
  else formatTokenAmountNum (jsParseBigInt raw) decimals

/-- truncateAddress duplicated in src/frontend/lib/soroban.ts. -/
def truncateAddress (addr : JsStr) (chars : Nat) : JsStr :=
  if addr.length ≤ chars * 2 + 3 then addr
  else addr.take (chars + 1) ++ ("...").toList ++ jsSliceFromEnd addr chars

/-- One response of the ledger service to a getTransaction poll. -/
inductive PollStatus where
  | notFound
  | success
  | failed
deriving DecidableEq

/-- Terminal classification of the polling phase of submitTransaction:
success returns the hash, failed throws the service result payload, and
timedOut throws the not-found-after-polling error. -/
inductive PollOutcome where
  | success
  | failed
  | timedOut
deriving DecidableEq

/-- The retry loop of submitTransaction in src/frontend/lib/soroban.ts:
while the latest response is NOT_FOUND and attempts are below the budget,
poll again. The fuel argument is the remaining attempt budget, calls
counts the getTransaction requests already made (each request i receives
the response service i), and r is the most recent response. Returns the
final response together with the total number of service polls. -/
def pollLoop (service : Nat → PollStatus) : Nat → Nat → PollStatus → PollStatus × Nat
  | 0, calls, r => (r, calls)
  | fuel + 1, calls, r =>
    if r = PollStatus.notFound then pollLoop service fuel (calls + 1) (service calls)
    else (r, calls)

/-- The polling phase of submitTransaction: one immediate getTransaction,
then the bounded retry loop with an attempt budget of 30, and the
classification of the final response. -/
def submitPoll (service : Nat → PollStatus) : PollOutcome × Nat :=
  let fin := pollLoop service 30 1 (service 0)
  ((match fin.1 with
    | PollStatus.notFound => PollOutcome.timedOut
    | PollStatus.failed => PollOutcome.failed
    | PollStatus.success => PollOutcome.success), fin.2)

end SorobanLib

namespace VestingUI

/-- The cliff plus linear vesting computation of VestingDisplay in
src/frontend/app/dashboard/[contractId]/VestingProgress.tsx: zero before
the cliff ledger, the full total at or after the end ledger, and otherwise
total times elapsed over duration in BigInt arithmetic, whose division
truncates toward zero. -/
def vestedAmount (total : Int) (cliff endL current : Nat) : Int :=
  if current < cliff then 0
  else if endL ≤ current then total
  else jsDiv (total * ((current : Int) - (cliff : Int))) ((endL : Int) - (cliff : Int))

/-- Division with an explicit zero-divisor check; none marks a division by
zero the source would have attempted. -/
def checkedDivInt (a b : Int) : Option Int :=
  if b = 0 then none else some (jsDiv a b)

/-- The vesting computation with its single division checked, to state
that a division by zero is unreachable. -/
def vestedAmountChecked (total : Int) (cliff endL current : Nat) : Option Int :=
  if current < cliff then some 0
  else if endL ≤ current then some total
  else checkedDivInt (total * ((current : Int) - (cliff : Int))) ((endL : Int) - (cliff : Int))

/-- The vested-percent computation of VestingDisplay (releasedPercent is
the same expression with the released amount as numerator): guarded by
total greater than zero, basis points by BigInt division, then the float
division by 100 modelled as exact rational division, with the division
checked. -/
def vestedPercentChecked (total vested : Int) : Option ℚ :=
  if 0 < total then (checkedDivInt (vested * 10000) total).map (fun bp => (bp : ℚ) / 100)
  else some 0

/-- Rational division with an explicit zero-divisor check, modelling the
JavaScript float division of the timeline computation. -/
def checkedDivQ (a b : ℚ) : Option ℚ :=
  if b = 0 then none else some (a / b)

/-- The timeline cursor computation of VestingDisplay: 100 at or after the
end ledger; the elapsed fraction of the range scaled to a percentage when
strictly past the cliff and the range is positive; otherwise the
initialization value 0. The range is the end minus cliff ledger as a
signed number. -/
def timelinePosChecked (cliff endL current : Nat) : Option ℚ :=
  if endL ≤ current then some 100
  else if cliff < current ∧ 0 < (endL : Int) - (cliff : Int) then
    (checkedDivQ ((current : ℚ) - (cliff : ℚ)) ((endL : ℚ) - (cliff : ℚ))).map (fun x => x * 100)
  else some 0

end VestingUI

/-- Mock ledger service returning NOT_FOUND for the first 29 polls and
SUCCESS from the 30th poll on. -/
def svcNotFound29 : Nat → SorobanLib.PollStatus :=
  fun i => if i < 29 then SorobanLib.PollStatus.notFound else SorobanLib.PollStatus.success

/-- Mock ledger service returning NOT_FOUND for the first 30 polls and
SUCCESS from the 31st poll on. -/
def svcNotFound30 : Nat → SorobanLib.PollStatus :=
  fun i => if i < 30 then SorobanLib.PollStatus.notFound else SorobanLib.PollStatus.success

/-- Mock ledger service that always returns NOT_FOUND. -/
def svcAlwaysNotFound : Nat → SorobanLib.PollStatus :=
  fun _ => SorobanLib.PollStatus.notFound

/-!
Helper lemmas shared by the claim theorems below.
-/

/-- Vesting computation before the cliff ledger. -/
theorem vestedAmount_of_lt_cliff (total : Int) (cliff endL current : Nat)
    (h : current < cliff) :
    VestingUI.vestedAmount total cliff endL current = 0 := by
  unfold VestingUI.vestedAmount
  rw [if_pos h]

/-- Vesting computation at or after the end ledger, given an ordered
schedule. -/
theorem vestedAmount_of_ge_end (total : Int) (cliff endL current : Nat)
    (hce : cliff ≤ endL) (h : endL ≤ current) :
    VestingUI.vestedAmount total cliff endL current = total := by
  unfold VestingUI.vestedAmount
  rw [if_neg (by omega), if_pos h]

/-- Vesting computation strictly between cliff and end, in the truncating
form the code computes. -/
theorem vestedAmount_mid_tdiv (total : Int) (cliff endL current : Nat)
    (h1 : cliff ≤ current) (h2 : current < endL) :
    VestingUI.vestedAmount total cliff endL current =
      Int.tdiv (total * ((current : Int) - (cliff : Int))) ((endL : Int) - (cliff : Int)) := by
  unfold VestingUI.vestedAmount jsDiv
  rw [if_neg (by omega), if_neg (by omega)]

/-- For a nonnegative total the truncating division of the middle branch
agrees with Euclidean (here also floor) division. -/
theorem vestedAmount_mid (total : Int) (cliff endL current : Nat)
    (h1 : cliff ≤ current) (h2 : current < endL) (ht : 0 ≤ total) :
    VestingUI.vestedAmount total cliff endL current =
      total * ((current : Int) - (cliff : Int)) / ((endL : Int) - (cliff : Int)) := by
  rw [vestedAmount_mid_tdiv total cliff endL current h1 h2]
  exact Int.tdiv_eq_ediv (mul_nonneg ht (by omega)) (by omega)

/-- The vested amount is nonnegative for a nonnegative total. -/
theorem vestedAmount_nonneg (total : Int) (cliff endL current : Nat) (ht : 0 ≤ total) :
    0 ≤ VestingUI.vestedAmount total cliff endL current := by
  by_cases hc : current < cliff
  · rw [vestedAmount_of_lt_cliff total cliff endL current hc]
  · by_cases he : endL ≤ current
    · unfold VestingUI.vestedAmount
      rw [if_neg hc, if_pos he]
      exact ht
    · rw [vestedAmount_mid total cliff endL current (by omega) (by omega) ht]
      exact Int.ediv_nonneg (mul_nonneg ht (by omega)) (by omega)

/-- The vested amount never exceeds the total for an ordered schedule and
nonnegative total. -/
theorem vestedAmount_le_total (total : Int) (cliff endL current : Nat)
    (ht : 0 ≤ total) (hce : cliff ≤ endL) :
    VestingUI.vestedAmount total cliff endL current ≤ total := by
  by_cases hc : current < cliff
  · rw [vestedAmount_of_lt_cliff total cliff endL current hc]
    exact ht
  · by_cases he : endL ≤ current
    · rw [vestedAmount_of_ge_end total cliff endL current hce he]
    · rw [vestedAmount_mid total cliff endL current (by omega) (by omega) ht]
      have hd : (0 : Int) < (endL : Int) - (cliff : Int) := by omega
      calc total * ((current : Int) - (cliff : Int)) / ((endL : Int) - (cliff : Int))
          ≤ total * ((endL : Int) - (cliff : Int)) / ((endL : Int) - (cliff : Int)) :=
            Int.ediv_le_ediv hd (mul_le_mul_of_nonneg_left (by omega) ht)
        _ = total := Int.mul_ediv_cancel total (by omega)

/-- The vested amount is monotone in the current ledger. -/
theorem vestedAmount_mono (total : Int) (cliff endL c c' : Nat)
    (ht : 0 ≤ total) (hce : cliff ≤ endL) (hcc : c ≤ c') :
    VestingUI.vestedAmount total cliff endL c ≤ VestingUI.vestedAmount total cliff endL c' := by
  by_cases h1 : c' < cliff
  · rw [vestedAmount_of_lt_cliff total cliff endL c (by omega),
      vestedAmount_of_lt_cliff total cliff endL c' h1]
  · by_cases h2 : endL ≤ c'
    · rw [vestedAmount_of_ge_end total cliff endL c' hce h2]
      exact vestedAmount_le_total total cliff endL c ht hce
    · by_cases h3 : c < cliff
      · rw [vestedAmount_of_lt_cliff total cliff endL c h3]
        exact vestedAmount_nonneg total cliff endL c' ht
      · rw [vestedAmount_mid total cliff endL c (by omega) (by omega) ht,
          vestedAmount_mid total cliff endL c' (by omega) (by omega) ht]
        exact Int.ediv_le_ediv (by omega) (mul_le_mul_of_nonneg_left (by omega) ht)

/-- Digit characters of nonzero digits differ from the zero character. -/
theorem digitChar_ne_zero {d : Nat} (hd : d ≠ 0) (hlt : d < 10) : digitChar d ≠ '0' := by
  interval_cases d
  all_goals first
  | omega
  | decide

/-- A nonzero number keeps a nonzero digit in its digit list, given enough
fuel. -/
theorem natDigitsAux_has_nonzero :
    ∀ (fuel n : Nat), n ≠ 0 → n < fuel → ∃ c ∈ natDigitsAux fuel n, c ≠ '0' := by
  intro fuel
  induction fuel with
  | zero =>
    intro n _ hlt
    exact absurd hlt (by omega)
  | succ f ih =>
    intro n h0 hlt
    by_cases h10 : n < 10
    · refine ⟨digitChar n, ?_, digitChar_ne_zero h0 h10⟩
      simp [natDigitsAux, h10]
    · have hrec : natDigitsAux (f + 1) n = digitChar (n % 10) :: natDigitsAux f (n / 10) := by
        simp [natDigitsAux, h10]
      have hd0 : n / 10 ≠ 0 := by omega
      have hdlt : n / 10 < f := by omega
      obtain ⟨c, hc, hcne⟩ := ih (n / 10) hd0 hdlt
      refine ⟨c, ?_, hcne⟩
      rw [hrec]
      exact List.mem_cons_of_mem _ hc

/-- The decimal rendering of a nonzero natural number contains a nonzero
character. -/
theorem natReprModel_has_nonzero {n : Nat} (h0 : n ≠ 0) :
    ∃ c ∈ natReprModel n, c ≠ '0' := by
  obtain ⟨c, hc, hcne⟩ := natDigitsAux_has_nonzero (n + 1) n h0 (by omega)
  exact ⟨c, List.mem_reverse.mpr hc, hcne⟩

/-- The decimal rendering of a nonzero integer contains a nonzero
character. -/
theorem intRepr_has_nonzero {i : Int} (h0 : i ≠ 0) : ∃ c ∈ intRepr i, c ≠ '0' := by
  have hn : i.natAbs ≠ 0 := Int.natAbs_ne_zero.mpr h0
  obtain ⟨c, hc, hcne⟩ := natReprModel_has_nonzero hn
  unfold intRepr
  by_cases hneg : i < 0
  · rw [if_pos hneg]
    exact ⟨c, List.mem_cons_of_mem _ hc, hcne⟩
  · rw [if_neg hneg]
    exact ⟨c, hc, hcne⟩

/-- Stripping trailing zeros cannot empty a list that holds a nonzero
character. -/
theorem stripTrailingZeros_ne_nil {s : JsStr} {c : Char} (hc : c ∈ s) (hne : c ≠ '0') :
    stripTrailingZeros s ≠ [] := by
  intro hnil
  unfold stripTrailingZeros at hnil
  rw [List.reverse_eq_nil_iff] at hnil
  have hall := (List.dropWhile_eq_nil_iff).mp hnil c (List.mem_reverse.mpr hc)
  exact hne (by simpa using hall)

/-- The retry loop returns immediately on a terminal response. -/
theorem pollLoop_stop (service : Nat → SorobanLib.PollStatus) (fuel calls : Nat)
    (r : SorobanLib.PollStatus) (h : r ≠ SorobanLib.PollStatus.notFound) :
    SorobanLib.pollLoop service fuel calls r = (r, calls) := by
  cases fuel with
  | zero => rfl
  | succ f => simp [SorobanLib.pollLoop, h]

/-- The retry loop makes at most fuel additional service polls. -/
theorem pollLoop_calls_le (service : Nat → SorobanLib.PollStatus) :
    ∀ (fuel calls : Nat) (r : SorobanLib.PollStatus),
      (SorobanLib.pollLoop service fuel calls r).2 ≤ calls + fuel := by
  intro fuel
  induction fuel with
  | zero =>
    intro calls r
    simp [SorobanLib.pollLoop]
  | succ f ih =>
    intro calls r
    by_cases h : r = SorobanLib.PollStatus.notFound
    · subst h
      have step : SorobanLib.pollLoop service (f + 1) calls SorobanLib.PollStatus.notFound =
          SorobanLib.pollLoop service f (calls + 1) (service calls) := by
        simp [SorobanLib.pollLoop]
      rw [step]
      have := ih (calls + 1) (service calls)
      omega
    · rw [pollLoop_stop service (f + 1) calls r h]
      omega

/-- A run of NOT_FOUND responses exhausts the full fuel of the retry
loop. -/
theorem pollLoop_all_notFound (service : Nat → SorobanLib.PollStatus) :
    ∀ (fuel calls : Nat),
      (∀ i, i < calls + fuel → service i = SorobanLib.PollStatus.notFound) →
      SorobanLib.pollLoop service fuel calls SorobanLib.PollStatus.notFound =
        (SorobanLib.PollStatus.notFound, calls + fuel) := by
  intro fuel
  induction fuel with
  | zero =>
    intro calls _
    rfl
  | succ f ih =>
    intro calls h
    have hs0 : service calls = SorobanLib.PollStatus.notFound := h calls (by omega)
    have step : SorobanLib.pollLoop service (f + 1) calls SorobanLib.PollStatus.notFound =
        SorobanLib.pollLoop service f (calls + 1) (service calls) := by
      simp [SorobanLib.pollLoop]
    rw [step, hs0]
    have e1 : calls + 1 + f = calls + (f + 1) := by omega
    have hrec := ih (calls + 1) (fun i hi => h i (by omega))
    rw [hrec, e1]

/-- A run of NOT_FOUND responses followed by a terminal response stops
the retry loop at the terminal response. -/
theorem pollLoop_streak_then (service : Nat → SorobanLib.PollStatus) :
    ∀ (fuel k calls : Nat), k < fuel →
      (∀ i, i < calls + k → service i = SorobanLib.PollStatus.notFound) →
      service (calls + k) ≠ SorobanLib.PollStatus.notFound →
      SorobanLib.pollLoop service fuel calls SorobanLib.PollStatus.notFound =
        (service (calls + k), calls + k + 1) := by
  intro fuel
  induction fuel with
  | zero =>
    intro k calls hk _ _
    exact absurd hk (by omega)
  | succ f ih =>
    intro k calls hk hall hstop
    have step : SorobanLib.pollLoop service (f + 1) calls SorobanLib.PollStatus.notFound =
        SorobanLib.pollLoop service f (calls + 1) (service calls) := by
      simp [SorobanLib.pollLoop]
    cases k with
    | zero =>
      rw [step, pollLoop_stop service f (calls + 1) (service calls) (by simpa using hstop)]
      simp
    | succ j =>
      have hs0 : service calls = SorobanLib.PollStatus.notFound := hall calls (by omega)
      rw [step, hs0]
      have e1 : calls + 1 + j = calls + (j + 1) := by omega
      have hrec := ih j (calls + 1) (by omega) (fun i hi => hall i (by omega))
        (by rw [e1]; exact hstop)
      rw [hrec, e1]

/-!
Claim theorems.
-/

/-- Claim C1 counterexample: the claim describes the middle branch as a
floor division of the product, but BigInt division truncates toward zero.
At total = -1, cliffLedger = 0, endLedger = 2, currentLedger = 1 the code
computes 0 while the claimed floor formula yields -1. -/
theorem claim1_counterexample :
    VestingUI.vestedAmount (-1) 0 2 1 = 0 ∧
    Int.fdiv ((-1) * (((1 : Nat) : Int) - ((0 : Nat) : Int))) (((2 : Nat) : Int) - ((0 : Nat) : Int)) = -1 ∧
    VestingUI.vestedAmount (-1) 0 2 1 ≠
      Int.fdiv ((-1) * (((1 : Nat) : Int) - ((0 : Nat) : Int))) (((2 : Nat) : Int) - ((0 : Nat) : Int)) := by
  refine ⟨by decide, by decide, by decide⟩

/-- Claim C1 (amended): given cliffLedger at most endLedger, the vesting
calculator returns 0 below the cliff, the total at or past the end, and
otherwise total times elapsed divided by duration with the multiplication
performed before a truncating (toward-zero) integer division in
arbitrary-precision arithmetic; for nonnegative totals this division
coincides with floor division. -/
theorem claim1_vesting_formula (total : Int) (cliff endL current : Nat)
    (h : cliff ≤ endL) :
    (current < cliff → VestingUI.vestedAmount total cliff endL current = 0) ∧
    (endL ≤ current → VestingUI.vestedAmount total cliff endL current = total) ∧
    (cliff ≤ current → current < endL →
      VestingUI.vestedAmount total cliff endL current =
        Int.tdiv (total * ((current : Int) - (cliff : Int))) ((endL : Int) - (cliff : Int)) ∧
      (0 ≤ total → VestingUI.vestedAmount total cliff endL current =
        Int.fdiv (total * ((current : Int) - (cliff : Int))) ((endL : Int) - (cliff : Int)))) := by
  refine ⟨fun h1 => vestedAmount_of_lt_cliff total cliff endL current h1,
    fun h2 => vestedAmount_of_ge_end total cliff endL current h h2,
    fun h1 h2 => ⟨vestedAmount_mid_tdiv total cliff endL current h1 h2, fun ht => ?_⟩⟩
  rw [Int.fdiv_eq_ediv _ (by omega)]
  exact vestedAmount_mid total cliff endL current h1 h2 ht

/-- Claim C1 witness: the amended statement instantiated at
total = 10, cliff = 2, end = 5, current = 3. -/
theorem claim1_vesting_formula_witness :
    (3 < 2 → VestingUI.vestedAmount 10 2 5 3 = 0) ∧
    (5 ≤ 3 → VestingUI.vestedAmount 10 2 5 3 = 10) ∧
    (2 ≤ 3 → 3 < 5 →
      VestingUI.vestedAmount 10 2 5 3 =
        Int.tdiv (10 * (((3 : Nat) : Int) - ((2 : Nat) : Int))) (((5 : Nat) : Int) - ((2 : Nat) : Int)) ∧
      ((0 : Int) ≤ 10 → VestingUI.vestedAmount 10 2 5 3 =
        Int.fdiv (10 * (((3 : Nat) : Int) - ((2 : Nat) : Int))) (((5 : Nat) : Int) - ((2 : Nat) : Int)))) :=
  claim1_vesting_formula 10 2 5 3 (by omega)

/-- Claim C2: for nonnegative total and an ordered schedule the vested
amount stays between 0 and total, is monotone in the current ledger,
vanishes at the cliff when the schedule is nondegenerate, and reaches the
total at the end ledger. -/
theorem claim2_vesting_algebraic (total : Int) (cliff endL c c' : Nat)
    (ht : 0 ≤ total) (hce : cliff ≤ endL) :
    (0 ≤ VestingUI.vestedAmount total cliff endL c ∧
      VestingUI.vestedAmount total cliff endL c ≤ total) ∧
    (c ≤ c' → VestingUI.vestedAmount total cliff endL c ≤
      VestingUI.vestedAmount total cliff endL c') ∧
    (cliff < endL → VestingUI.vestedAmount total cliff endL cliff = 0) ∧
    VestingUI.vestedAmount total cliff endL endL = total := by
  refine ⟨⟨vestedAmount_nonneg total cliff endL c ht,
    vestedAmount_le_total total cliff endL c ht hce⟩,
    fun hcc => vestedAmount_mono total cliff endL c c' ht hce hcc,
    fun hlt => ?_,
    vestedAmount_of_ge_end total cliff endL endL hce le_rfl⟩
  rw [vestedAmount_mid_tdiv total cliff endL cliff le_rfl hlt]
  simp

/-- Claim C2 witness: the statement instantiated at total = 100,
cliff = 2, end = 10, currents 4 and 7. -/
theorem claim2_vesting_algebraic_witness :
    (0 ≤ VestingUI.vestedAmount 100 2 10 4 ∧ VestingUI.vestedAmount 100 2 10 4 ≤ 100) ∧
    (4 ≤ 7 → VestingUI.vestedAmount 100 2 10 4 ≤ VestingUI.vestedAmount 100 2 10 7) ∧
    (2 < 10 → VestingUI.vestedAmount 100 2 10 2 = 0) ∧
    VestingUI.vestedAmount 100 2 10 10 = 100 :=
  claim2_vesting_algebraic 100 2 10 4 7 (by omega) (by omega)

/-- Claim C3: when the cliff and end ledgers coincide the vesting
computation never divides by zero and yields the total at or past the end
and zero otherwise; the percentage computation is guarded for every total
(in particular it returns 0 for a zero total without dividing), and the
timeline position short-circuits to 100 or 0. -/
theorem claim3_no_division_by_zero (total : Int) (cliff endL current : Nat)
    (h : cliff = endL) :
    VestingUI.vestedAmountChecked total cliff endL current =
      some (if endL ≤ current then total else 0) ∧
    (∀ (t : Int) (cl e cu : Nat), (VestingUI.vestedAmountChecked t cl e cu).isSome = true) ∧
    (∀ t v : Int, (VestingUI.vestedPercentChecked t v).isSome = true) ∧
    (∀ v : Int, VestingUI.vestedPercentChecked 0 v = some 0) ∧
    VestingUI.timelinePosChecked cliff endL current =
      some (if endL ≤ current then 100 else 0) := by
  subst h
  refine ⟨?_, ?_, ?_, ?_, ?_⟩
  · by_cases hc : current < cliff
    · unfold VestingUI.vestedAmountChecked
      rw [if_pos hc, if_neg (by omega)]
    · unfold VestingUI.vestedAmountChecked
      rw [if_neg hc, if_pos (by omega), if_pos (by omega)]
  · intro t cl e cu
    unfold VestingUI.vestedAmountChecked VestingUI.checkedDivInt
    by_cases hc : cu < cl
    · rw [if_pos hc]
      rfl
    · by_cases he : e ≤ cu
      · rw [if_neg hc, if_pos he]
        rfl
      · rw [if_neg hc, if_neg he, if_neg (by omega)]
        rfl
  · intro t v
    unfold VestingUI.vestedPercentChecked VestingUI.checkedDivInt
    by_cases h0 : 0 < t
    · rw [if_pos h0, if_neg (by omega)]
      rfl
    · rw [if_neg h0]
      rfl
  · intro v
    unfold VestingUI.vestedPercentChecked
    rw [if_neg (by omega)]
  · by_cases he : cliff ≤ current
    · unfold VestingUI.timelinePosChecked
      rw [if_pos he, if_pos he]
    · unfold VestingUI.timelinePosChecked
      rw [if_neg he, if_neg (by omega), if_neg he]

/-- Claim C3 witness: the statement instantiated at total = 7 and
cliff = end = 5, current = 9. -/
theorem claim3_no_division_by_zero_witness :
    VestingUI.vestedAmountChecked 7 5 5 9 = some (if 5 ≤ 9 then (7 : Int) else 0) ∧
    (∀ (t : Int) (cl e cu : Nat), (VestingUI.vestedAmountChecked t cl e cu).isSome = true) ∧
    (∀ t v : Int, (VestingUI.vestedPercentChecked t v).isSome = true) ∧
    (∀ v : Int, VestingUI.vestedPercentChecked 0 v = some 0) ∧
    VestingUI.timelinePosChecked 5 5 9 = some (if 5 ≤ 9 then 100 else 0) :=
  claim3_no_division_by_zero 7 5 5 9 rfl

/-- Claim C4: for a signed 64-bit high half and an unsigned 64-bit low
half, decodeI128 returns the decimal string of hi * 2 ^ 64 + lo computed
in arbitrary precision; the value lies in the signed 128-bit range and
the halves are recovered exactly (arithmetic shift right and low 64 bits),
so the recombination is exact, including for negative high halves. -/
theorem claim4_decodeI128_correct (hi : Int) (lo : Nat)
    (h1 : -(2 ^ 63) ≤ hi) (h2 : hi < 2 ^ 63) (h3 : lo < 2 ^ 64) :
    StellarLib.decodeI128 (ScVal.scvI128 hi lo) =
      some (intRepr (hi * 2 ^ 64 + (lo : Int))) ∧
    -(2 ^ 127) ≤ hi * 2 ^ 64 + (lo : Int) ∧
    hi * 2 ^ 64 + (lo : Int) < 2 ^ 127 ∧
    Int.fdiv (hi * 2 ^ 64 + (lo : Int)) (2 ^ 64) = hi ∧
    (hi * 2 ^ 64 + (lo : Int)) % 2 ^ 64 = (lo : Int) := by
  have hlo0 : (0 : Int) ≤ (lo : Int) := Int.natCast_nonneg lo
  have hlo : (lo : Int) < 2 ^ 64 := by exact_mod_cast h3
  have hcomm : hi * 2 ^ 64 + (lo : Int) = (lo : Int) + hi * 2 ^ 64 := by ring
  refine ⟨rfl, ?_, ?_, ?_, ?_⟩
  · have e63 : (2 : Int) ^ 63 = 9223372036854775808 := by norm_num
    have e64 : (2 : Int) ^ 64 = 18446744073709551616 := by norm_num
    have e127 : (2 : Int) ^ 127 = 170141183460469231731687303715884105728 := by norm_num
    rw [e63] at h1
    rw [e64] at hlo ⊢
    rw [e127]
    omega
  · have e63 : (2 : Int) ^ 63 = 9223372036854775808 := by norm_num
    have e64 : (2 : Int) ^ 64 = 18446744073709551616 := by norm_num
    have e127 : (2 : Int) ^ 127 = 170141183460469231731687303715884105728 := by norm_num
    rw [e63] at h2
    rw [e64] at hlo ⊢
    rw [e127]
    omega
  · rw [Int.fdiv_eq_ediv _ (by positivity), hcomm,
      Int.add_mul_ediv_right _ _ (by positivity : ((2 : Int) ^ 64) ≠ 0),
      Int.ediv_eq_zero_of_lt hlo0 hlo]
    omega
  · rw [hcomm, Int.add_mul_emod_self, Int.emod_eq_of_lt hlo0 hlo]

/-- Claim C4 witness: instantiated at hi = -1, lo = 5, a negative high
half. -/
theorem claim4_decodeI128_correct_witness :
    StellarLib.decodeI128 (ScVal.scvI128 (-1) 5) =
      some (intRepr ((-1) * 2 ^ 64 + (((5 : Nat)) : Int))) ∧
    -(2 ^ 127) ≤ (-1) * 2 ^ 64 + (((5 : Nat)) : Int) ∧
    (-1) * 2 ^ 64 + (((5 : Nat)) : Int) < 2 ^ 127 ∧
    Int.fdiv ((-1) * 2 ^ 64 + (((5 : Nat)) : Int)) (2 ^ 64) = -1 ∧
    ((-1) * 2 ^ 64 + (((5 : Nat)) : Int)) % 2 ^ 64 = ((5 : Nat) : Int) :=
  claim4_decodeI128_correct (-1) 5 (by norm_num) (by norm_num) (by norm_num)

/-- Claim C5 counterexample: against a service answering NOT_FOUND for the
first 30 polls, the poller does not time out within a 30-poll budget: it
makes one immediate status check plus 30 retries, observes the 31st
response and returns success after 31 service polls. -/
theorem claim5_counterexample :
    SorobanLib.submitPoll svcNotFound30 = (SorobanLib.PollOutcome.success, 31) ∧
    (SorobanLib.submitPoll svcNotFound30).1 ≠ SorobanLib.PollOutcome.timedOut ∧
    30 < (SorobanLib.submitPoll svcNotFound30).2 := by
  refine ⟨by decide, by decide, by decide⟩

/-- Claim C5 (amended): the poller makes one immediate status check plus
at most 30 retries, so at most 31 service polls in total; with NOT_FOUND
returned 29 times then SUCCESS it terminates in the success outcome
within 30 polls; with 31 consecutive NOT_FOUND responses it terminates in
the timed-out outcome, which is distinct from the failed outcome, after
exactly 31 polls. -/
theorem claim5_poller_amended (service : Nat → SorobanLib.PollStatus) :
    (SorobanLib.submitPoll service).2 ≤ 31 ∧
    ((∀ i, i < 29 → service i = SorobanLib.PollStatus.notFound) →
      service 29 = SorobanLib.PollStatus.success →
      SorobanLib.submitPoll service = (SorobanLib.PollOutcome.success, 30)) ∧
    ((∀ i, i < 31 → service i = SorobanLib.PollStatus.notFound) →
      SorobanLib.submitPoll service = (SorobanLib.PollOutcome.timedOut, 31)) ∧
    SorobanLib.PollOutcome.timedOut ≠ SorobanLib.PollOutcome.failed := by
  refine ⟨?_, ?_, ?_, by decide⟩
  · have hle := pollLoop_calls_le service 30 1 (service 0)
    simp only [SorobanLib.submitPoll]
    omega
  · intro h29 hs
    have h0 : service 0 = SorobanLib.PollStatus.notFound := h29 0 (by omega)
    have hkey := pollLoop_streak_then service 30 28 1 (by omega)
      (fun i hi => h29 i (by omega))
      (by rw [show 1 + 28 = 29 by rfl, hs]; decide)
    simp only [SorobanLib.submitPoll]
    rw [h0, hkey, show 1 + 28 = 29 by rfl, hs]
  · intro h31
    have h0 : service 0 = SorobanLib.PollStatus.notFound := h31 0 (by omega)
    have hkey := pollLoop_all_notFound service 30 1 (fun i hi => h31 i (by omega))
    simp only [SorobanLib.submitPoll]
    rw [h0, hkey]

/-- Claim C5 witness: the amended statement applied to the two concrete
mock services of the claim scenarios. -/
theorem claim5_poller_amended_witness :
    SorobanLib.submitPoll svcNotFound29 = (SorobanLib.PollOutcome.success, 30) ∧
    SorobanLib.submitPoll svcAlwaysNotFound = (SorobanLib.PollOutcome.timedOut, 31) := by
  constructor
  · exact (claim5_poller_amended svcNotFound29).2.1
      (fun i hi => by simp [svcNotFound29, hi]) (by norm_num [svcNotFound29])
  · exact (claim5_poller_amended svcAlwaysNotFound).2.2.1 (fun i _ => rfl)

/-- Claim C6 counterexample: the code joins the two slices with three
ASCII periods, not the single ellipsis character, so the claimed boundary
value differs from the computed one; moreover a long address that itself
contains periods is returned unchanged in spite of exceeding the length
bound, and with a zero chars count the negative-index slice yields the
whole string instead of the last zero characters. -/
theorem claim6_counterexample :
    StellarLib.truncateAddress (("G").toList ++ List.replicate 55 'A') 4 ≠ ("GAAAA…AAAA").toList ∧
    StellarLib.truncateAddress (("G").toList ++ List.replicate 55 'A') 4 = ("GAAAA...AAAA").toList ∧
    2 * 1 + 3 < (("AB...Z").toList).length ∧
    StellarLib.truncateAddress (("AB...Z").toList) 1 = ("AB...Z").toList ∧
    StellarLib.truncateAddress (("ABCDE").toList) 0 = ("A...ABCDE").toList := by
  refine ⟨by decide, by decide, by decide, by decide, by decide⟩

/-- Claim C6 (amended): for a chars count of at least 1, truncateAddress
returns the address unchanged when its length is at most 2 * chars + 3
and otherwise returns the first chars + 1 characters, three ASCII
periods, and the last chars characters (a result of length 2 * chars + 4
that can coincide with the input when the input itself contains periods);
the boundary example yields the three-period form GAAAA...AAAA. -/
theorem claim6_truncate_amended (addr : JsStr) (chars : Nat) (hc : 1 ≤ chars) :
    (addr.length ≤ 2 * chars + 3 → StellarLib.truncateAddress addr chars = addr) ∧
    (2 * chars + 3 < addr.length →
      StellarLib.truncateAddress addr chars =
        addr.take (chars + 1) ++ ("...").toList ++ addr.drop (addr.length - chars) ∧
      (StellarLib.truncateAddress addr chars).length = 2 * chars + 4) ∧
    StellarLib.truncateAddress (("G").toList ++ List.replicate 55 'A') 4 = ("GAAAA...AAAA").toList := by
  refine ⟨fun hle => ?_, fun hgt => ?_, by decide⟩
  · unfold StellarLib.truncateAddress
    rw [if_pos (by omega)]
  · have he : StellarLib.truncateAddress addr chars =
        addr.take (chars + 1) ++ ("...").toList ++ addr.drop (addr.length - chars) := by
      unfold StellarLib.truncateAddress jsSliceFromEnd
      rw [if_neg (by omega), if_neg (by omega)]
    refine ⟨he, ?_⟩
    rw [he]
    simp only [List.length_append, List.length_take, List.length_drop]
    have h3 : (("...").toList).length = 3 := by decide
    omega

/-- Claim C6 witness: the amended statement instantiated at a ten-letter
address and chars = 2. -/
theorem claim6_truncate_amended_witness :
    StellarLib.truncateAddress (("ABCDEFGHIJ").toList) 2 =
      (("ABCDEFGHIJ").toList).take 3 ++ ("...").toList ++
        (("ABCDEFGHIJ").toList).drop ((("ABCDEFGHIJ").toList).length - 2) :=
  ((claim6_truncate_amended (("ABCDEFGHIJ").toList) 2 (by omega)).2.1 (by decide)).1

/-- Claim C7: for a nonnegative raw amount, formatTokenAmount divides by
10 to the decimals; a zero remainder yields only the locale-grouped whole
part, and a nonzero remainder appends a nonempty fractional part obtained
by zero-padding the remainder digits and stripping trailing zeros; the
two concrete examples hold on the string-level function. -/
theorem claim7_formatTokenAmount (raw : Int) (decimals : Nat) (h : 0 ≤ raw) :
    (raw % 10 ^ decimals = 0 →
      StellarLib.formatTokenAmountNum raw decimals =
        toLocaleStringInt (raw / 10 ^ decimals)) ∧
    (raw % 10 ^ decimals ≠ 0 →
      StellarLib.formatTokenAmountNum raw decimals =
        toLocaleStringInt (raw / 10 ^ decimals) ++ '.' ::
          stripTrailingZeros (jsPadStart (intRepr (raw % 10 ^ decimals)) decimals '0') ∧
      stripTrailingZeros (jsPadStart (intRepr (raw % 10 ^ decimals)) decimals '0') ≠ []) ∧
    StellarLib.formatTokenAmount (("10000000").toList) 7 = ("1").toList ∧
    StellarLib.formatTokenAmount (("15000000").toList) 7 = ("1.5").toList := by
  have hd0 : (0 : Int) ≤ 10 ^ decimals := by positivity
  have hmod : jsMod raw (10 ^ decimals) = raw % 10 ^ decimals := by
    unfold jsMod
    exact Int.tmod_eq_emod h hd0
  have hdiv : jsDiv raw (10 ^ decimals) = raw / 10 ^ decimals := by
    unfold jsDiv
    exact Int.tdiv_eq_ediv h hd0
  refine ⟨fun h0 => ?_, fun h0 => ⟨?_, ?_⟩, by decide, by decide⟩
  · unfold StellarLib.formatTokenAmountNum
    rw [hmod, hdiv, if_pos h0]
  · unfold StellarLib.formatTokenAmountNum
    rw [hmod, hdiv, if_neg h0]
  · obtain ⟨c, hc, hcne⟩ := intRepr_has_nonzero h0
    refine stripTrailingZeros_ne_nil ?_ hcne
    unfold jsPadStart
    exact List.mem_append.mpr (Or.inr hc)

/-- Claim C7 witness: the statement instantiated at raw = 5 and
decimals = 1, whose remainder is nonzero. -/
theorem claim7_formatTokenAmount_witness :
    ((5 : Int) % 10 ^ 1 = 0 →
      StellarLib.formatTokenAmountNum 5 1 = toLocaleStringInt ((5 : Int) / 10 ^ 1)) ∧
    ((5 : Int) % 10 ^ 1 ≠ 0 →
      StellarLib.formatTokenAmountNum 5 1 =
        toLocaleStringInt ((5 : Int) / 10 ^ 1) ++ '.' ::
          stripTrailingZeros (jsPadStart (intRepr ((5 : Int) % 10 ^ 1)) 1 '0') ∧
      stripTrailingZeros (jsPadStart (intRepr ((5 : Int) % 10 ^ 1)) 1 '0') ≠ []) ∧
    StellarLib.formatTokenAmount (("10000000").toList) 7 = ("1").toList ∧
    StellarLib.formatTokenAmount (("15000000").toList) 7 = ("1.5").toList :=
  claim7_formatTokenAmount 5 1 (by norm_num)

/-- Claim C8: fetchTopHolders returns the empty list without error when
either classic-asset argument is absent and when the query fails; on
success it returns one holder per fetched record whose share percentage
is computed against the sum of the fetched balances (the only total in
the computation) and is an integer number of hundredths. -/
theorem claim8_fetchTopHolders (symbol issuer : Option JsStr) (q : StellarLib.HolderQuery)
    (records : List (JsStr × Option Nat)) :
    ((symbol = none ∨ issuer = none) → StellarLib.fetchTopHolders symbol issuer q = []) ∧
    StellarLib.fetchTopHolders symbol issuer StellarLib.HolderQuery.fail = [] ∧
    (StellarLib.fetchTopHolders symbol issuer (StellarLib.HolderQuery.ok records)).length ≤
      records.length ∧
    ∀ h ∈ StellarLib.fetchTopHolders symbol issuer (StellarLib.HolderQuery.ok records),
      h.sharePercent = StellarLib.sharePercentOf h.rawBalance (StellarLib.sumBalances records) ∧
      ∃ n : Nat, h.sharePercent * 100 = (n : ℚ) := by
  refine ⟨fun habs => ?_, ?_, ?_, ?_⟩
  · cases habs with
    | inl hs =>
      subst hs
      simp [StellarLib.fetchTopHolders, jsTruthy]
    | inr hs =>
      subst hs
      simp [StellarLib.fetchTopHolders, jsTruthy]
  · unfold StellarLib.fetchTopHolders
    split
    · rfl
    · rfl
  · unfold StellarLib.fetchTopHolders
    split
    · simp
    · simp
  · intro h hmem
    unfold StellarLib.fetchTopHolders at hmem
    by_cases hb : (jsTruthy symbol && jsTruthy issuer) = true
    · rw [if_pos hb] at hmem
      simp only [List.mem_map] at hmem
      obtain ⟨r, hr, rfl⟩ := hmem
      refine ⟨rfl, ?_⟩
      unfold StellarLib.sharePercentOf
      by_cases h0 : 0 < StellarLib.sumBalances records
      · rw [if_pos h0]
        exact ⟨(r.2.getD 0 * 10000) / StellarLib.sumBalances records,
          div_mul_cancel₀ _ (by norm_num)⟩
      · rw [if_neg h0]
        exact ⟨0, by norm_num⟩
    · rw [if_neg hb] at hmem
      exact absurd hmem (List.not_mem_nil h)

/-- Claim C8 witness: with an absent asset code the failing query returns
the empty list. -/
theorem claim8_fetchTopHolders_witness :
    StellarLib.fetchTopHolders none (some (("I").toList)) StellarLib.HolderQuery.fail = [] :=
  (claim8_fetchTopHolders none (some (("I").toList)) StellarLib.HolderQuery.fail []).1
    (Or.inl rfl)

/-- Claim C9: fetchTokenInfo succeeds despite failures of the optional
admin and total_supply simulations, rendering the affected fields with
the unavailability sentinel used by the code, while a failure of the
mandatory name, symbol or decimals simulation rejects the whole fetch
with that error. -/
theorem claim9_fetchTokenInfo (cid : JsStr) (nv sv : ScVal) (d : Nat) (a e1 e2 e3 : JsStr) :
    (StellarLib.fetchTokenInfo cid
        ⟨Except.ok nv, Except.ok sv, Except.ok (ScVal.scvU32 d),
          Except.error e1, Except.error e2⟩ =
      Except.ok ⟨StellarLib.decodeString nv, StellarLib.decodeString sv, d,
        ("N/A").toList, ("N/A").toList, ("N/A").toList, cid⟩) ∧
    (StellarLib.fetchTokenInfo cid
        ⟨Except.ok nv, Except.ok sv, Except.ok (ScVal.scvU32 d),
          Except.ok (ScVal.scvAddress a), Except.error e2⟩ =
      Except.ok ⟨StellarLib.decodeString nv, StellarLib.decodeString sv, d,
        ("N/A").toList, ("N/A").toList, a, cid⟩) ∧
    (∀ s2 s3 s4 s5,
      StellarLib.fetchTokenInfo cid ⟨Except.error e3, s2, s3, s4, s5⟩ = Except.error e3) ∧
    (∀ s3 s4 s5,
      StellarLib.fetchTokenInfo cid ⟨Except.ok nv, Except.error e3, s3, s4, s5⟩ =
        Except.error e3) ∧
    (∀ s4 s5,
      StellarLib.fetchTokenInfo cid
          ⟨Except.ok nv, Except.ok sv, Except.error e3, s4, s5⟩ =
        Except.error e3) :=
  ⟨rfl, rfl,
    fun s2 s3 _ _ => by cases s2 <;> cases s3 <;> rfl,
    fun s3 _ _ => by cases s3 <;> rfl,
    fun _ _ => rfl⟩

/-- Claim C10: the six helper functions duplicated between
src/frontend/lib/soroban.ts and src/frontend/lib/stellar.ts are
extensionally equal: on every input both copies return the same result. -/
theorem claim10_duplicated_helpers_equal :
    (∀ v : ScVal, StellarLib.decodeString v = SorobanLib.decodeString v) ∧
    (∀ v : ScVal, StellarLib.decodeI128 v = SorobanLib.decodeI128 v) ∧
    (∀ v : ScVal, StellarLib.decodeU32 v = SorobanLib.decodeU32 v) ∧
    (∀ v : ScVal, StellarLib.decodeAddress v = SorobanLib.decodeAddress v) ∧
    (∀ (raw : JsStr) (decimals : Nat),
      StellarLib.formatTokenAmount raw decimals = SorobanLib.formatTokenAmount raw decimals) ∧
    (∀ (num : Int) (decimals : Nat),
      StellarLib.formatTokenAmountNum num decimals =
        SorobanLib.formatTokenAmountNum num decimals) ∧
    (∀ (addr : JsStr) (chars : Nat),
      StellarLib.truncateAddress addr chars = SorobanLib.truncateAddress addr chars) :=
  ⟨fun _ => rfl, fun _ => rfl, fun _ => rfl, fun _ => rfl,
    fun _ _ => rfl, fun _ _ => rfl, fun _ _ => rfl⟩
